import Mathlib

/-!
Verification of the PortaPack filesystem abstraction layer
(`firmware/application/file.hpp` and its collaborators).

Filenames are 16-bit code-unit strings (`std::filesystem::path` is
`std::u16string`); we model them as `List Nat`.  The implementation file
`file.cpp` is not part of the provided sources, so the bodies of the
declared operations (the sequential filename generator, the `File`
I/O operations and `directory_iterator::operator++`) are modelled from
the specification; the declarations, signatures and inline bodies in
`file.hpp` are embedded directly from the source.
-/

/-! ## Sequential filename generator (§4.5) -/

/-- Error taxonomy of §7 of the specification. -/
inductive FsError where
  | NotFound
  | AccessDenied
  | DiskFull
  | InvalidName
  | NotReady
  | DriverError
  | NamespaceExhausted
deriving DecidableEq, Repr

/-- A code unit is a decimal digit when it lies in the ASCII range 48..57. -/
def isDigit (c : Nat) : Bool := 48 ≤ c && c ≤ 57

/-- The wildcard code unit of a filename-stem pattern: ASCII `?` (63). -/
def wildcardCU : Nat := 63

/-- The literal prefix, wildcard-field width and literal suffix of a
filename-stem pattern (step 1 of §4.5). -/
structure PatternParts where
  pre : List Nat
  width : Nat
  suf : List Nat
deriving DecidableEq, Repr

/-- Modelled from the spec: step 1 of §4.5 of the specification (the body of
`next_filename_stem_matching_pattern` in `file.cpp` is not among the provided
sources).  Split the pattern into a literal prefix, the run of wildcard
characters (its width), and the literal suffix. -/
def splitPattern (pat : List Nat) : PatternParts :=
  let pre := pat.takeWhile (fun c => c != wildcardCU)
  let rest := pat.dropWhile (fun c => c != wildcardCU)
  { pre := pre
    width := (rest.takeWhile (fun c => c == wildcardCU)).length
    suf := rest.dropWhile (fun c => c == wildcardCU) }

/-- Modelled from the spec: step 2 of §4.5.  A directory entry name matches a
pattern when it has the pattern's exact length and agrees with the pattern at
every non-wildcard position. -/
def matchesPattern (pat name : List Nat) : Bool :=
  name.length == pat.length &&
  (List.zip pat name).all (fun pc => pc.1 == wildcardCU || pc.1 == pc.2)

/-- The wildcard-position characters of a matching name: `width` code units
starting right after the literal prefix. -/
def fieldChars (p : PatternParts) (name : List Nat) : List Nat :=
  (name.drop p.pre.length).take p.width

/-- Accumulate a decimal numeral, most significant digit first. -/
def parseNat (cs : List Nat) : Nat :=
  cs.foldl (fun acc c => acc * 10 + (c - 48)) 0

/-- Modelled from the spec: step 3 of §4.5.  Parse the wildcard-position
characters as an unsigned decimal integer; names whose wildcard-position
characters are not all decimal digits yield `none` and are skipped. -/
def parseDecimal (cs : List Nat) : Option Nat :=
  if cs.all isDigit then some (parseNat cs) else none

/-- Modelled from the spec: steps 2–3 of §4.5.  The parsed wildcard-field
values of the directory entries that match the pattern. -/
def matchingValues (pat : List Nat) (es : List (List Nat)) : List Nat :=
  es.filterMap (fun name =>
    if matchesPattern pat name then parseDecimal (fieldChars (splitPattern pat) name) else none)

/-- The maximum of a list of naturals (zero on the empty list). -/
def maxVal (l : List Nat) : Nat := l.foldr max 0

/-- Modelled from the spec: step 4 of §4.5.  The next value is zero when no
entries match, and one more than the maximum parsed value otherwise. -/
def nextValueOf (vals : List Nat) : Nat :=
  if vals = [] then 0 else maxVal vals + 1

/-- The next wildcard-field value for a pattern over a directory listing. -/
def nextValue (pat : List Nat) (es : List (List Nat)) : Nat :=
  nextValueOf (matchingValues pat es)

/-- The zero-padded fixed-width decimal rendering of a value: exactly `w`
code units, the `w` least significant decimal digits. -/
def padDecimal : Nat → Nat → List Nat
  | 0, _ => []
  | w + 1, n => padDecimal w (n / 10) ++ [48 + n % 10]

/-- Modelled from the spec: steps 1–6 of §4.5 of the specification (the body
of `next_filename_stem_matching_pattern`, declared at `file.hpp:135`, lives in
the absent `file.cpp`).  Scan the directory entries matching the pattern,
compute the next wildcard-field value, and return the pattern with the
wildcard field replaced by that value zero-padded to the field width; if the
next value cannot be represented in the field width, the namespace is
exhausted (§7). -/
def next_filename_stem_matching_pattern (pat : List Nat) (es : List (List Nat)) :
    Except FsError (List Nat) :=
  let p := splitPattern pat
  let next := nextValue pat es
  if 10 ^ p.width ≤ next then Except.error FsError.NamespaceExhausted
  else Except.ok (p.pre ++ padDecimal p.width next ++ p.suf)

/-! Concrete names used by the specification's examples, as code-unit lists
(`NAME_????`, `NAME_0000`, ...). -/

def pat_name : List Nat := [78, 65, 77, 69, 95, 63, 63, 63, 63]

def name_0000 : List Nat := [78, 65, 77, 69, 95, 48, 48, 48, 48]

def name_0002 : List Nat := [78, 65, 77, 69, 95, 48, 48, 48, 50]

def name_0003 : List Nat := [78, 65, 77, 69, 95, 48, 48, 48, 51]

def name_0004 : List Nat := [78, 65, 77, 69, 95, 48, 48, 48, 52]

def name_9999 : List Nat := [78, 65, 77, 69, 95, 57, 57, 57, 57]

def name_abcd : List Nat := [78, 65, 77, 69, 95, 97, 98, 99, 100]

/-! ## Arithmetic facts about the zero-padded decimal field -/

theorem maxVal_cons (a : Nat) (t : List Nat) : maxVal (a :: t) = max a (maxVal t) := rfl

theorem mem_le_maxVal {l : List Nat} {v : Nat} (h : v ∈ l) : v ≤ maxVal l := by
  induction l with
  | nil => cases h
  | cons a t ih =>
    rcases List.mem_cons.mp h with rfl | hm
    · rw [maxVal_cons]; exact le_max_left _ _
    · rw [maxVal_cons]; exact le_trans (ih hm) (le_max_right _ _)

theorem maxVal_mem {l : List Nat} (h : l ≠ []) : maxVal l ∈ l := by
  induction l with
  | nil => exact absurd rfl h
  | cons a t ih =>
    by_cases ht : t = []
    · subst ht; simp [maxVal]
    · rcases le_total a (maxVal t) with hle | hle
      · rw [maxVal_cons, max_eq_right hle]
        exact List.mem_cons_of_mem _ (ih ht)
      · rw [maxVal_cons, max_eq_left hle]
        exact List.mem_cons_self _ _

theorem padDecimal_length (w n : Nat) : (padDecimal w n).length = w := by
  induction w generalizing n with
  | zero => rfl
  | succ w ih => simp [padDecimal, ih]

theorem padDecimal_all_digits (w n : Nat) : (padDecimal w n).all isDigit = true := by
  induction w generalizing n with
  | zero => rfl
  | succ w ih =>
    rw [padDecimal, List.all_append, ih]
    simp [isDigit]
    omega

theorem parseNat_append_digit (l : List Nat) (c : Nat) :
    parseNat (l ++ [c]) = parseNat l * 10 + (c - 48) := by
  simp [parseNat, List.foldl_append]

theorem parseNat_padDecimal (w n : Nat) : parseNat (padDecimal w n) = n % 10 ^ w := by
  induction w generalizing n with
  | zero => simp [padDecimal, parseNat, Nat.mod_one]
  | succ w ih =>
    rw [padDecimal, parseNat_append_digit, ih]
    have h : n % (10 * 10 ^ w) = n % 10 + 10 * (n / 10 % 10 ^ w) := Nat.mod_mul
    have h2 : (10 : Nat) ^ (w + 1) = 10 * 10 ^ w := by ring
    rw [h2, h]
    omega

theorem parseDecimal_padDecimal (w n : Nat) (h : n < 10 ^ w) :
    parseDecimal (padDecimal w n) = some n := by
  simp [parseDecimal, padDecimal_all_digits, parseNat_padDecimal, Nat.mod_eq_of_lt h]

/-- C1: for any pattern with a fixed-width wildcard field,
`next_filename_stem_matching_pattern` returns the pattern with the wildcard
field replaced by (maximum parsed value among matching directory entries + 1),
zero-padded to the field width, and for a directory with no matching entries
the field is replaced by zero.  (The no-overflow hypothesis keeps the call off
the namespace-exhaustion branch, which is claim C2's subject.) -/
theorem next_filename_field_replacement (pat : List Nat) (es : List (List Nat))
    (hov : nextValue pat es < 10 ^ (splitPattern pat).width) :
    next_filename_stem_matching_pattern pat es =
      Except.ok ((splitPattern pat).pre ++ padDecimal (splitPattern pat).width (nextValue pat es)
        ++ (splitPattern pat).suf)
    ∧ (padDecimal (splitPattern pat).width (nextValue pat es)).length = (splitPattern pat).width
    ∧ parseDecimal (padDecimal (splitPattern pat).width (nextValue pat es)) =
        some (nextValue pat es)
    ∧ (matchingValues pat es = [] → nextValue pat es = 0)
    ∧ (matchingValues pat es ≠ [] →
        maxVal (matchingValues pat es) ∈ matchingValues pat es ∧
        (∀ v ∈ matchingValues pat es, v ≤ maxVal (matchingValues pat es)) ∧
        nextValue pat es = maxVal (matchingValues pat es) + 1) := by
  refine ⟨?_, padDecimal_length _ _, parseDecimal_padDecimal _ _ hov, ?_, ?_⟩
  · simp only [next_filename_stem_matching_pattern]
    rw [if_neg (Nat.not_le.mpr hov)]
  · intro h
    simp [nextValue, nextValueOf, h]
  · intro h
    exact ⟨maxVal_mem h, fun v hv => mem_le_maxVal hv, by simp [nextValue, nextValueOf, h]⟩

/-- Witness for C1 at the specification's example: files `NAME_0000`,
`NAME_0003`, `NAME_0002` under pattern `NAME_????` yield `NAME_0004`. -/
theorem next_filename_field_replacement_witness :
    nextValue pat_name [name_0000, name_0003, name_0002] < 10 ^ (splitPattern pat_name).width ∧
    next_filename_stem_matching_pattern pat_name [name_0000, name_0003, name_0002] =
      Except.ok name_0004 ∧
    nextValue pat_name [] < 10 ^ (splitPattern pat_name).width ∧
    next_filename_stem_matching_pattern pat_name [] = Except.ok name_0000 :=
  ⟨by decide,
    ((next_filename_field_replacement pat_name [name_0000, name_0003, name_0002]
      (by decide)).1).trans rfl,
    by decide,
    ((next_filename_field_replacement pat_name [] (by decide)).1).trans rfl⟩

/-- C2: when some matching file already holds the maximum value representable
in the wildcard field (all nines), the generator fails with
`NamespaceExhausted` instead of returning a name. -/
theorem next_filename_namespace_exhausted (pat : List Nat) (es : List (List Nat))
    (h : 10 ^ (splitPattern pat).width - 1 ∈ matchingValues pat es) :
    next_filename_stem_matching_pattern pat es = Except.error FsError.NamespaceExhausted := by
  have hne : matchingValues pat es ≠ [] := by
    intro he
    rw [he] at h
    cases h
  have hmax : 10 ^ (splitPattern pat).width - 1 ≤ maxVal (matchingValues pat es) :=
    mem_le_maxVal h
  have hpow : 1 ≤ 10 ^ (splitPattern pat).width := Nat.one_le_pow _ _ (by omega)
  have hnv : nextValue pat es = maxVal (matchingValues pat es) + 1 := by
    simp [nextValue, nextValueOf, hne]
  have hge : 10 ^ (splitPattern pat).width ≤ nextValue pat es := by
    rw [hnv]
    omega
  simp only [next_filename_stem_matching_pattern]
  rw [if_pos hge]

/-- Witness for C2 at the specification's example: an existing `NAME_9999`
with a 4-digit field exhausts the namespace. -/
theorem next_filename_namespace_exhausted_witness :
    10 ^ (splitPattern pat_name).width - 1 ∈ matchingValues pat_name [name_9999] ∧
    next_filename_stem_matching_pattern pat_name [name_9999] =
      Except.error FsError.NamespaceExhausted :=
  ⟨by decide, next_filename_namespace_exhausted pat_name [name_9999] (by decide)⟩

/-- C3: a directory entry whose wildcard-position characters are not all
decimal digits is skipped without error: it contributes nothing to the list of
parsed values, and its presence never changes the returned name. -/
theorem next_filename_skips_malformed (pat name : List Nat) (es1 es2 : List (List Nat))
    (h : (fieldChars (splitPattern pat) name).all isDigit = false) :
    matchingValues pat (es1 ++ name :: es2) = matchingValues pat (es1 ++ es2) ∧
    next_filename_stem_matching_pattern pat (es1 ++ name :: es2) =
      next_filename_stem_matching_pattern pat (es1 ++ es2) := by
  have hnone :
      (if matchesPattern pat name then parseDecimal (fieldChars (splitPattern pat) name)
        else none) = (none : Option Nat) := by
    by_cases hm : matchesPattern pat name
    · simp [hm, parseDecimal, h]
    · simp [hm]
  have hmv : matchingValues pat (es1 ++ name :: es2) = matchingValues pat (es1 ++ es2) := by
    unfold matchingValues
    rw [List.filterMap_append, List.filterMap_append,
      @List.filterMap_cons_none _ _
        (fun nm =>
          if matchesPattern pat nm = true then parseDecimal (fieldChars (splitPattern pat) nm)
          else none)
        name es2 hnone]
  refine ⟨hmv, ?_⟩
  simp only [next_filename_stem_matching_pattern, nextValue]
  rw [hmv]

/-- Witness for C3 at the specification's example: a malformed `NAME_abcd`
among the entries does not affect the generated name. -/
theorem next_filename_skips_malformed_witness :
    (fieldChars (splitPattern pat_name) name_abcd).all isDigit = false ∧
    next_filename_stem_matching_pattern pat_name [name_0003, name_abcd, name_0002] =
      next_filename_stem_matching_pattern pat_name [name_0003, name_0002] :=
  ⟨by decide,
    (next_filename_skips_malformed pat_name name_abcd [name_0003] [name_0002] (by decide)).2⟩

/-! ## The Result model (file.hpp lines 143-191) -/

/-- Embedding of `std::filesystem::filesystem_error` (file.hpp lines 39-65):
a value wrapping a numeric driver status code. -/
structure filesystem_error where
  err : Nat
deriving DecidableEq, Repr

/-- The accessor `filesystem_error::code()` (file.hpp lines 57-59). -/
def filesystem_error.code (e : filesystem_error) : Nat := e.err

/-- Embedding of `File::Result<T>` (file.hpp lines 143-191): a tagged union
whose discriminant `type` selects which union member is live.  The two C++
converting constructors become the two constructors of the inductive type;
`Result() = delete` (line 170) is embedded by the absence of any further
constructor. -/
inductive Result (T : Type) where
  | mk_value : T → Result T
  | mk_error : filesystem_error → Result T

/-- The query `Result<T>::is_ok()` (file.hpp lines 154-156):
`type == Type::Success`. -/
def Result.is_ok {T : Type} : Result T → Bool
  | .mk_value _ => true
  | .mk_error _ => false

/-- The query `Result<T>::is_error()` (file.hpp lines 158-160):
`type == Type::Error`. -/
def Result.is_error {T : Type} : Result T → Bool
  | .mk_value _ => false
  | .mk_error _ => true

/-- The accessor `Result<T>::value()` (file.hpp lines 162-164), valid only
when the success member is live (reading the dead union member in C++ is a
contract violation, embedded here as the proof obligation). -/
def Result.value {T : Type} : (r : Result T) → r.is_ok = true → T
  | .mk_value v, _ => v

/-- The accessor `Result<T>::error()` (file.hpp lines 166-168), valid only
when the error member is live. -/
def Result.error {T : Type} : (r : Result T) → r.is_error = true → filesystem_error
  | .mk_error e, _ => e

/-- C5: every `Result<T>` holds exactly one live variant.  A result built from
a success value satisfies `is_ok` and not `is_error` and `value()` returns
that value; a result built from an error satisfies `is_error` and not `is_ok`
and `error()` returns that error; and every result is one of the two (default
construction is impossible: the type has no other constructor). -/
theorem result_exactly_one_variant {T : Type} (v : T) (e : filesystem_error) :
    (Result.mk_value v).is_ok = true
    ∧ (Result.mk_value v).is_error = false
    ∧ (Result.mk_value v).value rfl = v
    ∧ (Result.mk_error e : Result T).is_error = true
    ∧ (Result.mk_error e : Result T).is_ok = false
    ∧ (Result.mk_error e : Result T).error rfl = e
    ∧ ∀ r : Result T, (r.is_ok = true ∧ r.is_error = false) ∨
        (r.is_error = true ∧ r.is_ok = false) := by
  refine ⟨rfl, rfl, rfl, rfl, rfl, rfl, ?_⟩
  intro r
  cases r with
  | mk_value v => exact Or.inl ⟨rfl, rfl⟩
  | mk_error e => exact Or.inr ⟨rfl, rfl⟩

/-! ## Directory iterator identity and equality (file.hpp lines 89-126) -/

/-- Embedding of `directory_iterator`'s handle: the `std::shared_ptr<Impl>
impl` member (file.hpp line 99).  A shared pointer is modelled by the identity
of the heap cell it references (`none` is the null pointer; copies of one
iterator carry the same identity). -/
structure directory_iterator where
  impl : Option Nat
deriving DecidableEq, Repr

/-- The default constructor `directory_iterator()` (file.hpp line 110):
its `impl` shared pointer is null. -/
def directory_iterator.default_ctor : directory_iterator := ⟨none⟩

/-- The free function `end(const directory_iterator&)` (file.hpp line 124):
returns a default-constructed iterator. -/
def end_iter (_ : directory_iterator) : directory_iterator := ⟨none⟩

/-- The free function `operator!=` (file.hpp line 126):
`lhs.impl != rhs.impl`, shared-pointer identity comparison. -/
def iter_ne (lhs rhs : directory_iterator) : Bool := lhs.impl != rhs.impl

/-- C7: two `directory_iterator` values compare equal iff both are the "end"
state (null underlying reference) or both refer to the same underlying
resource identity; in particular a default-constructed iterator equals the
end sentinel returned by `end()`. -/
theorem directory_iterator_equality :
    (∀ lhs rhs : directory_iterator,
      (iter_ne lhs rhs = false ↔
        (lhs.impl = none ∧ rhs.impl = none) ∨
        (∃ r, lhs.impl = some r ∧ rhs.impl = some r)))
    ∧ ∀ x : directory_iterator, iter_ne directory_iterator.default_ctor (end_iter x) = false := by
  constructor
  · intro lhs rhs
    cases lhs with
    | mk li =>
      cases rhs with
      | mk ri =>
        cases li with
        | none => cases ri <;> simp [iter_ne]
        | some a =>
          cases ri with
          | none => simp [iter_ne]
          | some b =>
            simp [iter_ne]
            exact eq_comm
  · intro x
    rfl

/-! ## File handle ownership (file.hpp lines 193-198) -/

/-- The special member functions a C++ class declares, as written in its
definition.  A `= delete` definition still counts as user-declared. -/
structure CppSpecialMembers where
  copy_ctor_user_declared : Bool
  copy_ctor_deleted : Bool
  copy_assign_user_declared : Bool
  copy_assign_deleted : Bool
  move_ctor_user_declared : Bool
  move_assign_user_declared : Bool
  dtor_user_declared : Bool
deriving DecidableEq, Repr

/-- C++14 [class.copy]p9: a move constructor is implicitly declared as
defaulted only when the class has no user-declared copy constructor, no
user-declared copy assignment operator, no user-declared move assignment
operator and no user-declared destructor. -/
def hasMoveCtor (c : CppSpecialMembers) : Bool :=
  c.move_ctor_user_declared ||
  (!c.copy_ctor_user_declared && !c.copy_assign_user_declared &&
   !c.move_assign_user_declared && !c.dtor_user_declared)

/-- A class is copy-constructible when its copy constructor (user-declared or
implicit) is not deleted. -/
def copyConstructible (c : CppSpecialMembers) : Bool :=
  if c.copy_ctor_user_declared then !c.copy_ctor_deleted else true

/-- A class is move-constructible when it has a usable move constructor, or —
lacking any move constructor — when overload resolution for an rvalue can
fall back on a usable copy constructor (`const T&` binds to rvalues). -/
def moveConstructible (c : CppSpecialMembers) : Bool :=
  hasMoveCtor c || copyConstructible c

/-- The special members of `class File` as declared in file.hpp lines
193-198: `File() { }`, a user-declared destructor `~File();`, and the
comment-marked copy preventers `File(const File&) = delete;` and
`File& operator=(const File&) = delete;`.  No move constructor and no move
assignment operator are declared anywhere in the class. -/
def File_special_members : CppSpecialMembers :=
  { copy_ctor_user_declared := true
    copy_ctor_deleted := true
    copy_assign_user_declared := true
    copy_assign_deleted := true
    move_ctor_user_declared := false
    move_assign_user_declared := false
    dtor_user_declared := true }

/-- Counterexample to C9: `File` is not move-constructible.  The claim states
File values "may be moved, with a move transferring ownership"; but the class
declares no move operations, its user-declared destructor and user-declared
(deleted) copy operations suppress the implicit move constructor, and the
fallback copy constructor is deleted, so moving a `File` is ill-formed. -/
theorem file_not_movable_cex : moveConstructible File_special_members = false := rfl

/-- C9 as amended: at most one `File` instance ever wraps a given underlying
driver file handle — `File` values can be neither copied nor moved (the copy
operations are declared deleted, and no move operations exist: the
user-declared destructor and copy operations suppress the implicit ones), so
ownership of the wrapped resource can never be duplicated or transferred to
another `File` value. -/
theorem file_not_copyable_not_movable :
    copyConstructible File_special_members = false ∧
    moveConstructible File_special_members = false ∧
    hasMoveCtor File_special_members = false :=
  ⟨rfl, rfl, rfl⟩

/-! ## Error channels of the declared operations (file.hpp lines 130, 135,
200-218) -/

/-- The operations named by the specification's propagation policy. -/
inductive FileOp where
  | open_op
  | append
  | create
  | read
  | write
  | seek
  | write_line
  | sync
  | space_op
  | next_filename_op
deriving DecidableEq, Repr

/-- How a declared return type can carry a failure: `result_of` is the
`Result<T>` union, `optional_error` is `Optional<Error>`, and `plain` is a
bare value type with no error channel at all. -/
inductive ReturnChannel where
  | result_of
  | optional_error
  | plain
deriving DecidableEq, Repr

/-- The declared return type of each operation, transcribed from file.hpp:
`Optional<Error> open/append/create` (lines 201-203), `Result<Size>
read/write` (lines 205-206), `Result<Offset> seek` (line 208),
`Optional<Error> write_line` (line 215), `Optional<Error> sync` (line 218),
`space_info space(const path&)` (line 130) and
`std::filesystem::path next_filename_stem_matching_pattern(...)`
(line 135) — the last two return bare values. -/
def returnChannel : FileOp → ReturnChannel
  | .open_op => .optional_error
  | .append => .optional_error
  | .create => .optional_error
  | .read => .result_of
  | .write => .result_of
  | .seek => .result_of
  | .write_line => .optional_error
  | .sync => .optional_error
  | .space_op => .plain
  | .next_filename_op => .plain

/-- Whether a return channel can report a `filesystem_error` to the caller. -/
def carriesError : ReturnChannel → Bool
  | .result_of => true
  | .optional_error => true
  | .plain => false

/-- Counterexample to C6: not every listed operation surfaces failure through
an error-carrying return type.  The free-space query is declared as
`space_info space(const path& p)` (file.hpp line 130) — a bare value with no
error channel — so a driver failure there cannot reach the caller as a
`FilesystemError`; `next_filename_stem_matching_pattern` (line 135) likewise
returns a bare `path`. -/
theorem error_channel_not_universal_cex :
    ¬ ∀ op : FileOp, carriesError (returnChannel op) = true := by
  intro hAll
  exact absurd (hAll FileOp.space_op) (by decide)

/-- C6 as amended: every fallible File-Handle operation surfaces failure to
its immediate caller through an error-carrying return type — `read`, `write`
and `seek` through `Result<T>` and `open`, `append`, `create`, `write_line`
and `sync` through `Optional<Error>`, both carrying the driver status code —
but the free-space query and the sequential filename generator are declared
with bare return types (`space_info`, `path`) and have no error channel in
their signatures. -/
theorem error_channel_by_operation :
    (∀ op : FileOp, op ≠ FileOp.space_op → op ≠ FileOp.next_filename_op →
      carriesError (returnChannel op) = true)
    ∧ returnChannel FileOp.read = ReturnChannel.result_of
    ∧ returnChannel FileOp.write = ReturnChannel.result_of
    ∧ returnChannel FileOp.seek = ReturnChannel.result_of
    ∧ returnChannel FileOp.open_op = ReturnChannel.optional_error
    ∧ returnChannel FileOp.append = ReturnChannel.optional_error
    ∧ returnChannel FileOp.create = ReturnChannel.optional_error
    ∧ returnChannel FileOp.write_line = ReturnChannel.optional_error
    ∧ returnChannel FileOp.sync = ReturnChannel.optional_error
    ∧ returnChannel FileOp.space_op = ReturnChannel.plain
    ∧ returnChannel FileOp.next_filename_op = ReturnChannel.plain := by
  refine ⟨?_, rfl, rfl, rfl, rfl, rfl, rfl, rfl, rfl, rfl, rfl⟩
  intro op h1 h2
  cases op <;> first
    | rfl
    | exact absurd rfl h1
    | exact absurd rfl h2

/-- Witness for the amended C6 at a concrete operation: `read` is neither of
the two excluded operations and its declared return type carries an error. -/
theorem error_channel_by_operation_witness :
    FileOp.read ≠ FileOp.space_op ∧ FileOp.read ≠ FileOp.next_filename_op ∧
    carriesError (returnChannel FileOp.read) = true :=
  ⟨by decide, by decide,
    error_channel_by_operation.1 FileOp.read (by decide) (by decide)⟩

/-! ## File I/O model (§4.2; the bodies of the `File` operations declared at
file.hpp lines 201-218 live in the absent `file.cpp`) -/

/-- The durable storage of a volume: an association of paths (code-unit
lists) to byte contents. -/
structure Volume where
  medium : List (List Nat × List Nat)
deriving DecidableEq, Repr

/-- Look a path up on the medium. -/
def lookupFile : List (List Nat × List Nat) → List Nat → Option (List Nat)
  | [], _ => none
  | (q, d) :: rest, p => if q = p then some d else lookupFile rest p

/-- Store contents for a path on the medium, replacing any previous entry. -/
def updateFile : List (List Nat × List Nat) → List Nat → List Nat → List (List Nat × List Nat)
  | [], p, c => [(p, c)]
  | (q, d) :: rest, p, c => if q = p then (p, c) :: rest else (q, d) :: updateFile rest p c

/-- An open `File` handle (the `FIL f` member, file.hpp line 221): the opened
path, the driver's in-memory view of the contents, and the read/write
position. -/
structure OpenFile where
  path : List Nat
  contents : List Nat
  pos : Nat
deriving DecidableEq, Repr

/-- Modelled from the spec: `File::create` (§4.2; declared at file.hpp line
203, body in the absent `file.cpp`) creates a new file, truncating if one
exists at that path; the successful handle starts empty at position zero. -/
def File.create_file (p : List Nat) (v : Volume) : OpenFile × Volume :=
  (⟨p, [], 0⟩, ⟨updateFile v.medium p []⟩)

/-- Modelled from the spec: `File::write` (§4.2; declared at file.hpp line
206, body in the absent `file.cpp`) writes the bytes at the current position
and returns the number of bytes written (the successful, full-write case;
driver failures are outside this model). -/
def File.write (data : List Nat) (f : OpenFile) : OpenFile × Nat :=
  (⟨f.path, f.contents.take f.pos ++ data ++ f.contents.drop (f.pos + data.length),
    f.pos + data.length⟩, data.length)

/-- Modelled from the spec: `File::sync` (§4.2; declared at file.hpp line
218, body in the absent `file.cpp`) forces buffered writes to the storage
medium. -/
def File.sync_file (f : OpenFile) (v : Volume) : Volume :=
  ⟨updateFile v.medium f.path f.contents⟩

/-- Modelled from the spec: `File::open` (§4.2; declared at file.hpp line
201, body in the absent `file.cpp`) opens an existing file for read/write and
fails with `NotFound` if it is absent (FatFs status code `FR_NO_FILE` = 4). -/
def File.open_file (p : List Nat) (v : Volume) : Except filesystem_error OpenFile :=
  match lookupFile v.medium p with
  | some c => Except.ok ⟨p, c, 0⟩
  | none => Except.error ⟨4⟩

/-- Modelled from the spec: `File::read` (§4.2; declared at file.hpp line
205, body in the absent `file.cpp`) reads up to the requested number of bytes
from the current position, never past end-of-file, and advances the
position. -/
def File.read (n : Nat) (f : OpenFile) : OpenFile × List Nat :=
  let out := (f.contents.drop f.pos).take n
  (⟨f.path, f.contents, f.pos + out.length⟩, out)

theorem lookupFile_updateFile (m : List (List Nat × List Nat)) (p c : List Nat) :
    lookupFile (updateFile m p c) p = some c := by
  induction m with
  | nil => simp [updateFile, lookupFile]
  | cons qd rest ih =>
    obtain ⟨q, d⟩ := qd
    by_cases hq : q = p
    · simp [updateFile, lookupFile, hq]
    · simp [updateFile, lookupFile, hq, ih]

/-- C4: for every byte sequence, a successful `create`, a `write` of those
bytes, a `sync`, a reopen of the same path via `open`, and a read of that
many bytes returns exactly the bytes written, byte for byte. -/
theorem create_write_sync_open_read_roundtrip (p data : List Nat) (v : Volume) :
    File.open_file p
        (File.sync_file (File.write data (File.create_file p v).1).1
          (File.create_file p v).2) =
      Except.ok ⟨p, data, 0⟩
    ∧ (File.read data.length (⟨p, data, 0⟩ : OpenFile)).2 = data := by
  constructor
  · have hw : (File.write data (File.create_file p v).1).1 = ⟨p, data, 0 + data.length⟩ := by
      simp [File.create_file, File.write]
    rw [hw]
    simp [File.sync_file, File.open_file, File.create_file, lookupFile_updateFile]
  · simp [File.read]

/-! ## The array overload of `File::write` (file.hpp lines 210-213) -/

/-- Embedding of `std::array<uint8_t, N>`: a list of bytes of length `N`
(`a.data()` is the pointer to its `N` elements). -/
structure StdArray (N : Nat) where
  elems : List Nat
  len_eq : elems.length = N

/-- The template overload `Result<Size> write(const std::array<uint8_t, N>&
data)` (file.hpp lines 210-213): its body is `return write(data.data(), N);`,
so it calls the pointer-and-count overload on the array's storage with count
`N` — in this model, on the first `N` bytes of the array's element list. -/
def File.write_array {N : Nat} (data : StdArray N) (f : OpenFile) : OpenFile × Nat :=
  File.write (data.elems.take N) f

/-- C10: for every `std::array<uint8_t, N>` value, the array overload of
`File::write` returns exactly the same result as `File::write(a.data(), N)`
on the same handle state — which, since the array holds exactly `N` bytes, is
the same as writing the array's whole contents. -/
theorem write_array_delegates {N : Nat} (a : StdArray N) (f : OpenFile) :
    File.write_array a f = File.write (a.elems.take N) f ∧
    File.write_array a f = File.write a.elems f := by
  refine ⟨rfl, ?_⟩
  unfold File.write_array
  have htake : a.elems.take N = a.elems :=
    List.take_of_length_le (Nat.le_of_eq a.len_eq)
  rw [htake]

/-! ## Shared enumeration cursor of the directory iterator (file.hpp lines
89-99 and 115-120) -/

/-- Embedding of `directory_entry` (file.hpp lines 81-87, over `FILINFO`):
the entry name and size fields a caller can copy out. -/
structure dir_entry where
  fname : List Nat
  fsize : Nat
deriving DecidableEq, Repr

/-- Embedding of `directory_iterator::Impl` (file.hpp lines 90-97): the
driver directory handle `DIR dir` (modelled by the entries the walk has not
yet produced) together with the single entry storage
`directory_entry filinfo` shared by every copy of the iterator. -/
structure Impl where
  dir_remaining : List dir_entry
  filinfo : dir_entry
deriving DecidableEq, Repr

/-- The heap of `Impl` cells that `shared_ptr<Impl>` values reference; a
`directory_iterator`'s `impl : Option Nat` is an identity into this heap. -/
abbrev ImplHeap := Nat → Impl

/-- Write one `Impl` cell of the heap. -/
def updateHeap (h : ImplHeap) (r : Nat) (value : Impl) : ImplHeap :=
  fun i => if i = r then value else h i

/-- Modelled from the spec: `directory_iterator::operator++` (declared at
file.hpp line 115, body in the absent `file.cpp`; §4.3).  Advancing fetches
the next entry of the driver walk into the shared cursor storage `filinfo`,
overwriting the previous entry; when the walk is finished the iterator
becomes the "end" state (its `impl` reference becomes null). -/
def directory_iterator.advance (h : ImplHeap) (it : directory_iterator) :
    ImplHeap × directory_iterator :=
  match it.impl with
  | none => (h, it)
  | some r =>
    match (h r).dir_remaining with
    | [] => (h, ⟨none⟩)
    | e :: rest => (updateHeap h r ⟨rest, e⟩, it)

/-- The dereference `operator*` (file.hpp lines 117-120): returns the shared
cursor entry `impl->filinfo`; dereferencing a null iterator has no value. -/
def directory_iterator.deref (h : ImplHeap) (it : directory_iterator) : Option dir_entry :=
  match it.impl with
  | none => none
  | some r => some (h r).filinfo

/-- C8: all copies of a `directory_iterator` observe one shared enumeration
cursor.  When one copy is advanced over a pending entry `e`, every copy
referring to the same `Impl` cell dereferences to `e` afterwards — the single
shared entry storage was overwritten, so the previous entry's fields are no
longer observable through any copy — and the remaining walk is the strict
suffix `rest`, so the enumeration is forward-only and non-restartable. -/
theorem directory_iterator_shared_cursor (h : ImplHeap) (it1 : directory_iterator)
    (r : Nat) (e : dir_entry) (rest : List dir_entry)
    (h1 : it1.impl = some r) (hc : (h r).dir_remaining = e :: rest) :
    (∀ it2 : directory_iterator, it2.impl = some r →
      directory_iterator.deref (directory_iterator.advance h it1).1 it2 = some e)
    ∧ ((directory_iterator.advance h it1).1 r).filinfo = e
    ∧ ((directory_iterator.advance h it1).1 r).dir_remaining = rest
    ∧ (directory_iterator.advance h it1).2 = it1 := by
  have hadv : directory_iterator.advance h it1 = (updateHeap h r ⟨rest, e⟩, it1) := by
    simp [directory_iterator.advance, h1, hc]
  refine ⟨?_, ?_, ?_, ?_⟩
  · intro it2 h2
    rw [hadv, directory_iterator.deref, h2]
    simp [updateHeap]
  · rw [hadv]
    simp [updateHeap]
  · rw [hadv]
    simp [updateHeap]
  · rw [hadv]

/-- Witness for C8: a concrete heap whose cell 0 holds entry `NAME_0000` in
the shared storage with `NAME_0002` still pending; advancing through one copy
makes the other copy see `NAME_0002`. -/
theorem directory_iterator_shared_cursor_witness :
    ((⟨some 0⟩ : directory_iterator).impl = some 0
      ∧ ((fun _ => (⟨[⟨name_0002, 7⟩], ⟨name_0000, 5⟩⟩ : Impl) : ImplHeap) 0).dir_remaining =
          [⟨name_0002, 7⟩])
    ∧ directory_iterator.deref
        (directory_iterator.advance (fun _ => ⟨[⟨name_0002, 7⟩], ⟨name_0000, 5⟩⟩) ⟨some 0⟩).1
        ⟨some 0⟩ = some ⟨name_0002, 7⟩ :=
  ⟨⟨rfl, rfl⟩,
    (directory_iterator_shared_cursor (fun _ => ⟨[⟨name_0002, 7⟩], ⟨name_0000, 5⟩⟩)
      ⟨some 0⟩ 0 ⟨name_0002, 7⟩ [] rfl rfl).1 ⟨some 0⟩ rfl⟩
